import Mathlib

/-!
Verification of the Block Composer (src/hw1/deeplearning/layer_utils.py).

The composer glues primitive differentiable operations (affine, ReLU,
batch normalization, dropout, convolution, max pooling) into composite
blocks, each with a paired forward and backward function.  The primitive
operations themselves live outside this module (deeplearning/layers.py,
deeplearning/fast_layers.py); the composer consumes them through the
fixed signatures listed in the specification: each primitive has a
forward returning an (output, cache) pair and a backward consuming an
upstream gradient together with that cache.

The embedding below transcribes each composite function line by line,
taking the primitive functions as explicit arguments and a monad `m` as
a parameter.  Instantiating `m` with `Id` gives the pure reading used
for the data-flow claims; instantiating with `Except E` models Python's
exception propagation; instantiating with `StateM S` models a mutable
world against which statelessness of the composer is proved.  Value
types (`V`), per-primitive cache types (`FC`, `RC`, `BC`, `DC`, `CC`,
`PC`) and parameter-mapping types (`BnP`, `DoP`, `CvP`, `PoP`) are kept
abstract, exactly as the source treats them opaquely.
-/

namespace LayerUtils

section Composer

variable {m : Type → Type} [Monad m]
variable {V FC RC BC DC CC PC : Type}
variable {BnP DoP CvP PoP : Type}

/-- Transcription of `affine_relu_forward(x, w, b)`:
affine forward, then ReLU forward; cache is the pair of stage caches. -/
def affine_relu_forward
    (affine_forward : V → V → V → m (V × FC))
    (relu_forward : V → m (V × RC))
    (x w b : V) : m (V × (FC × RC)) := do
  let (a, fc_cache) ← affine_forward x w b
  let (out, relu_cache) ← relu_forward a
  let cache := (fc_cache, relu_cache)
  return (out, cache)

/-- Transcription of `affine_relu_backward(dout, cache)`:
destructure the cache, ReLU backward, then affine backward. -/
def affine_relu_backward
    (relu_backward : V → RC → m V)
    (affine_backward : V → FC → m (V × V × V))
    (dout : V) (cache : FC × RC) : m (V × V × V) := do
  let (fc_cache, relu_cache) := cache
  let da ← relu_backward dout relu_cache
  let (dx, dw, db) ← affine_backward da fc_cache
  return (dx, dw, db)

/-- Transcription of `affine_relu_batchnorm_forward(x, w, b, bn_param)`:
sets `gamma = 1`, `beta = 0`, calls the affine-relu composite, then
batchnorm forward; cache pairs the sub-block cache with the batchnorm
cache. -/
def affine_relu_batchnorm_forward
    (affine_forward : V → V → V → m (V × FC))
    (relu_forward : V → m (V × RC))
    (batchnorm_forward : V → Int → Int → BnP → m (V × BC))
    (x w b : V) (bn_param : BnP) : m (V × ((FC × RC) × BC)) := do
  let gamma : Int := 1
  let beta : Int := 0
  let (l1, cache1) ← affine_relu_forward affine_forward relu_forward x w b
  let (out, cache2) ← batchnorm_forward l1 gamma beta bn_param
  let cache := (cache1, cache2)
  return (out, cache)

/-- Transcription of
`affine_relu_batchnorm_dropout_forward(x, w, b, bn_param, dropout_param)`:
sets `gamma = 1`, `beta = 0`, affine-relu composite, batchnorm forward,
dropout forward; cache is the triple of the three stage caches. -/
def affine_relu_batchnorm_dropout_forward
    (affine_forward : V → V → V → m (V × FC))
    (relu_forward : V → m (V × RC))
    (batchnorm_forward : V → Int → Int → BnP → m (V × BC))
    (dropout_forward : V → DoP → m (V × DC))
    (x w b : V) (bn_param : BnP) (dropout_param : DoP) :
    m (V × ((FC × RC) × BC × DC)) := do
  let gamma : Int := 1
  let beta : Int := 0
  let (l1, cache1) ← affine_relu_forward affine_forward relu_forward x w b
  let (l2, cache2) ← batchnorm_forward l1 gamma beta bn_param
  let (out, cache3) ← dropout_forward l2 dropout_param
  let cache := (cache1, cache2, cache3)
  return (out, cache)

/-- Transcription of `affine_relu_batchnorm_dropout_backward(dout, cache)`:
destructure the triple, dropout backward, batchnorm backward discarding
its scale/shift gradients, then the affine-relu composite backward. -/
def affine_relu_batchnorm_dropout_backward
    (dropout_backward : V → DC → m V)
    (batchnorm_backward : V → BC → m (V × V × V))
    (relu_backward : V → RC → m V)
    (affine_backward : V → FC → m (V × V × V))
    (dout : V) (cache : (FC × RC) × BC × DC) : m (V × V × V) := do
  let (cache1, cache2, cache3) := cache
  let dl3 ← dropout_backward dout cache3
  let (dl2, _, _) ← batchnorm_backward dl3 cache2
  let (dx, dw, db) ← affine_relu_backward relu_backward affine_backward dl2 cache1
  return (dx, dw, db)

/-- Transcription of `affine_relu_batchnorm_backward(dout, cache)`:
destructure the pair, batchnorm backward discarding its scale/shift
gradients, then the affine-relu composite backward. -/
def affine_relu_batchnorm_backward
    (batchnorm_backward : V → BC → m (V × V × V))
    (relu_backward : V → RC → m V)
    (affine_backward : V → FC → m (V × V × V))
    (dout : V) (cache : (FC × RC) × BC) : m (V × V × V) := do
  let (cache1, cache2) := cache
  let (dl2, _, _) ← batchnorm_backward dout cache2
  let (dx, dw, db) ← affine_relu_backward relu_backward affine_backward dl2 cache1
  return (dx, dw, db)

/-- Transcription of `affine_relu_dropout_forward(x, w, b, dropout_param)`:
affine-relu composite, then dropout forward. -/
def affine_relu_dropout_forward
    (affine_forward : V → V → V → m (V × FC))
    (relu_forward : V → m (V × RC))
    (dropout_forward : V → DoP → m (V × DC))
    (x w b : V) (dropout_param : DoP) : m (V × ((FC × RC) × DC)) := do
  let (l1, cache1) ← affine_relu_forward affine_forward relu_forward x w b
  let (out, cache2) ← dropout_forward l1 dropout_param
  let cache := (cache1, cache2)
  return (out, cache)

/-- Transcription of `affine_relu_dropout_backward(dout, cache)`:
dropout backward, then the affine-relu composite backward. -/
def affine_relu_dropout_backward
    (dropout_backward : V → DC → m V)
    (relu_backward : V → RC → m V)
    (affine_backward : V → FC → m (V × V × V))
    (dout : V) (cache : (FC × RC) × DC) : m (V × V × V) := do
  let (cache1, cache2) := cache
  let dl2 ← dropout_backward dout cache2
  let (dx, dw, db) ← affine_relu_backward relu_backward affine_backward dl2 cache1
  return (dx, dw, db)

/-- Transcription of `conv_relu_forward(x, w, b, conv_param)`:
convolution forward, then ReLU forward. -/
def conv_relu_forward
    (conv_forward_fast : V → V → V → CvP → m (V × CC))
    (relu_forward : V → m (V × RC))
    (x w b : V) (conv_param : CvP) : m (V × (CC × RC)) := do
  let (a, conv_cache) ← conv_forward_fast x w b conv_param
  let (out, relu_cache) ← relu_forward a
  let cache := (conv_cache, relu_cache)
  return (out, cache)

/-- Transcription of `conv_relu_backward(dout, cache)`:
ReLU backward, then convolution backward. -/
def conv_relu_backward
    (relu_backward : V → RC → m V)
    (conv_backward_fast : V → CC → m (V × V × V))
    (dout : V) (cache : CC × RC) : m (V × V × V) := do
  let (conv_cache, relu_cache) := cache
  let da ← relu_backward dout relu_cache
  let (dx, dw, db) ← conv_backward_fast da conv_cache
  return (dx, dw, db)

/-- Transcription of `conv_relu_pool_forward(x, w, b, conv_param, pool_param)`:
convolution forward, ReLU forward, max-pool forward; cache is the triple
of the three stage caches. -/
def conv_relu_pool_forward
    (conv_forward_fast : V → V → V → CvP → m (V × CC))
    (relu_forward : V → m (V × RC))
    (max_pool_forward_fast : V → PoP → m (V × PC))
    (x w b : V) (conv_param : CvP) (pool_param : PoP) :
    m (V × (CC × RC × PC)) := do
  let (a, conv_cache) ← conv_forward_fast x w b conv_param
  let (s, relu_cache) ← relu_forward a
  let (out, pool_cache) ← max_pool_forward_fast s pool_param
  let cache := (conv_cache, relu_cache, pool_cache)
  return (out, cache)

/-- Transcription of `conv_relu_pool_backward(dout, cache)`:
max-pool backward, ReLU backward, then convolution backward. -/
def conv_relu_pool_backward
    (relu_backward : V → RC → m V)
    (conv_backward_fast : V → CC → m (V × V × V))
    (max_pool_backward_fast : V → PC → m V)
    (dout : V) (cache : CC × RC × PC) : m (V × V × V) := do
  let (conv_cache, relu_cache, pool_cache) := cache
  let ds ← max_pool_backward_fast dout pool_cache
  let da ← relu_backward ds relu_cache
  let (dx, dw, db) ← conv_backward_fast da conv_cache
  return (dx, dw, db)

end Composer

/-!
Dynamic embedding of the cache values.  Python builds the composite
cache with a tuple display, e.g. `cache = (cache1, cache2)`, and the
backward functions destructure it with sequence unpacking, e.g.
`fc_cache, relu_cache = cache`, which raises at the unpacking statement
when the arity differs.  `Py` models such dynamically typed cache
values: an opaque stage cache is an `atom`, a tuple display is `tuple`.
-/

/-- A dynamically typed Python value as the composer sees caches:
either an opaque stage cache or a tuple of such values. -/
inductive Py : Type where
  | atom : Nat → Py
  | tuple : List Py → Py

/-- Length of a Python tuple value (`len`); `none` on a non-tuple. -/
def pyLen : Py → Option Nat
  | Py.tuple l => some l.length
  | Py.atom _ => none

/-- Failure modes observable from a composite backward call:
`unpackMismatch` is the error Python raises at a sequence-unpacking
statement whose right-hand side does not have the expected arity;
`primitiveFailure` stands for any error raised inside a primitive
operation (shape/contract errors and the like). -/
inductive PyErr : Type where
  | unpackMismatch : PyErr
  | primitiveFailure : PyErr
deriving DecidableEq

/-- Python sequence unpacking `a, b = v` over a dynamic value:
succeeds exactly on a tuple of arity two. -/
def unpack2 : Py → Except PyErr (Py × Py)
  | Py.tuple [a, b] => Except.ok (a, b)
  | _ => Except.error PyErr.unpackMismatch

/-- Python sequence unpacking `a, b, c = v` over a dynamic value:
succeeds exactly on a tuple of arity three. -/
def unpack3 : Py → Except PyErr (Py × Py × Py)
  | Py.tuple [a, b, c] => Except.ok (a, b, c)
  | _ => Except.error PyErr.unpackMismatch

section DynamicForward

variable {V : Type}

/-- `affine_relu_forward` with the cache tuple built as the dynamic
value Python builds: `cache = (fc_cache, relu_cache)`. -/
def affine_relu_forward_py
    (affine_forward : V → V → V → V × Py)
    (relu_forward : V → V × Py)
    (x w b : V) : V × Py :=
  let (a, fc_cache) := affine_forward x w b
  let (out, relu_cache) := relu_forward a
  let cache := Py.tuple [fc_cache, relu_cache]
  (out, cache)

/-- `affine_relu_batchnorm_forward` with dynamic cache values:
`cache = (cache1, cache2)` where `cache1` is the affine-relu
sub-block's own cache tuple. -/
def affine_relu_batchnorm_forward_py
    (affine_forward : V → V → V → V × Py)
    (relu_forward : V → V × Py)
    (batchnorm_forward : V → Int → Int → Nat → V × Py)
    (x w b : V) (bn_param : Nat) : V × Py :=
  let gamma : Int := 1
  let beta : Int := 0
  let (l1, cache1) := affine_relu_forward_py affine_forward relu_forward x w b
  let (out, cache2) := batchnorm_forward l1 gamma beta bn_param
  let cache := Py.tuple [cache1, cache2]
  (out, cache)

/-- `affine_relu_batchnorm_dropout_forward` with dynamic cache values:
`cache = (cache1, cache2, cache3)`. -/
def affine_relu_batchnorm_dropout_forward_py
    (affine_forward : V → V → V → V × Py)
    (relu_forward : V → V × Py)
    (batchnorm_forward : V → Int → Int → Nat → V × Py)
    (dropout_forward : V → Nat → V × Py)
    (x w b : V) (bn_param : Nat) (dropout_param : Nat) : V × Py :=
  let gamma : Int := 1
  let beta : Int := 0
  let (l1, cache1) := affine_relu_forward_py affine_forward relu_forward x w b
  let (l2, cache2) := batchnorm_forward l1 gamma beta bn_param
  let (out, cache3) := dropout_forward l2 dropout_param
  let cache := Py.tuple [cache1, cache2, cache3]
  (out, cache)

/-- `conv_relu_forward` with dynamic cache values:
`cache = (conv_cache, relu_cache)`. -/
def conv_relu_forward_py
    (conv_forward_fast : V → V → V → Nat → V × Py)
    (relu_forward : V → V × Py)
    (x w b : V) (conv_param : Nat) : V × Py :=
  let (a, conv_cache) := conv_forward_fast x w b conv_param
  let (out, relu_cache) := relu_forward a
  let cache := Py.tuple [conv_cache, relu_cache]
  (out, cache)

/-- `conv_relu_pool_forward` with dynamic cache values:
`cache = (conv_cache, relu_cache, pool_cache)`. -/
def conv_relu_pool_forward_py
    (conv_forward_fast : V → V → V → Nat → V × Py)
    (relu_forward : V → V × Py)
    (max_pool_forward_fast : V → Nat → V × Py)
    (x w b : V) (conv_param : Nat) (pool_param : Nat) : V × Py :=
  let (a, conv_cache) := conv_forward_fast x w b conv_param
  let (s, relu_cache) := relu_forward a
  let (out, pool_cache) := max_pool_forward_fast s pool_param
  let cache := Py.tuple [conv_cache, relu_cache, pool_cache]
  (out, cache)

end DynamicForward

section DynamicBackward

variable {V : Type}

/-- `affine_relu_backward` over a dynamic cache: the destructuring
`fc_cache, relu_cache = cache` is the fallible `unpack2`; primitive
calls are fallible as in Python. -/
def affine_relu_backward_py
    (relu_backward : V → Py → Except PyErr V)
    (affine_backward : V → Py → Except PyErr (V × V × V))
    (dout : V) (cache : Py) : Except PyErr (V × V × V) := do
  let (fc_cache, relu_cache) ← unpack2 cache
  let da ← relu_backward dout relu_cache
  let (dx, dw, db) ← affine_backward da fc_cache
  return (dx, dw, db)

/-- `affine_relu_batchnorm_backward` over a dynamic cache. -/
def affine_relu_batchnorm_backward_py
    (batchnorm_backward : V → Py → Except PyErr (V × V × V))
    (relu_backward : V → Py → Except PyErr V)
    (affine_backward : V → Py → Except PyErr (V × V × V))
    (dout : V) (cache : Py) : Except PyErr (V × V × V) := do
  let (cache1, cache2) ← unpack2 cache
  let (dl2, _, _) ← batchnorm_backward dout cache2
  let (dx, dw, db) ← affine_relu_backward_py relu_backward affine_backward dl2 cache1
  return (dx, dw, db)

/-- `affine_relu_batchnorm_dropout_backward` over a dynamic cache. -/
def affine_relu_batchnorm_dropout_backward_py
    (dropout_backward : V → Py → Except PyErr V)
    (batchnorm_backward : V → Py → Except PyErr (V × V × V))
    (relu_backward : V → Py → Except PyErr V)
    (affine_backward : V → Py → Except PyErr (V × V × V))
    (dout : V) (cache : Py) : Except PyErr (V × V × V) := do
  let (cache1, cache2, cache3) ← unpack3 cache
  let dl3 ← dropout_backward dout cache3
  let (dl2, _, _) ← batchnorm_backward dl3 cache2
  let (dx, dw, db) ← affine_relu_backward_py relu_backward affine_backward dl2 cache1
  return (dx, dw, db)

/-- `affine_relu_dropout_backward` over a dynamic cache. -/
def affine_relu_dropout_backward_py
    (dropout_backward : V → Py → Except PyErr V)
    (relu_backward : V → Py → Except PyErr V)
    (affine_backward : V → Py → Except PyErr (V × V × V))
    (dout : V) (cache : Py) : Except PyErr (V × V × V) := do
  let (cache1, cache2) ← unpack2 cache
  let dl2 ← dropout_backward dout cache2
  let (dx, dw, db) ← affine_relu_backward_py relu_backward affine_backward dl2 cache1
  return (dx, dw, db)

/-- `conv_relu_backward` over a dynamic cache. -/
def conv_relu_backward_py
    (relu_backward : V → Py → Except PyErr V)
    (conv_backward_fast : V → Py → Except PyErr (V × V × V))
    (dout : V) (cache : Py) : Except PyErr (V × V × V) := do
  let (conv_cache, relu_cache) ← unpack2 cache
  let da ← relu_backward dout relu_cache
  let (dx, dw, db) ← conv_backward_fast da conv_cache
  return (dx, dw, db)

/-- `conv_relu_pool_backward` over a dynamic cache. -/
def conv_relu_pool_backward_py
    (relu_backward : V → Py → Except PyErr V)
    (conv_backward_fast : V → Py → Except PyErr (V × V × V))
    (max_pool_backward_fast : V → Py → Except PyErr V)
    (dout : V) (cache : Py) : Except PyErr (V × V × V) := do
  let (conv_cache, relu_cache, pool_cache) ← unpack3 cache
  let ds ← max_pool_backward_fast dout pool_cache
  let da ← relu_backward ds relu_cache
  let (dx, dw, db) ← conv_backward_fast da conv_cache
  return (dx, dw, db)

end DynamicBackward

/-!
Concrete primitive instantiations.  The tagged family marks each stage
cache with a distinct atom so that the composite cache's structure and
component order can be read off; the other families are used to
instantiate the parametric theorems at concrete inputs.
-/

/-- Affine forward whose cache is the atom tagged 0. -/
def afTag : Nat → Nat → Nat → Nat × Py := fun x w b => (x + w + b, Py.atom 0)

/-- ReLU forward whose cache is the atom tagged 1. -/
def rfTag : Nat → Nat × Py := fun a => (a, Py.atom 1)

/-- Batchnorm forward whose cache is the atom tagged 2. -/
def bnTag : Nat → Int → Int → Nat → Nat × Py := fun a _ _ _ => (a, Py.atom 2)

/-- Dropout forward whose cache is the atom tagged 3. -/
def dropTag : Nat → Nat → Nat × Py := fun a _ => (a, Py.atom 3)

/-- Convolution forward whose cache is the atom tagged 4. -/
def convTag : Nat → Nat → Nat → Nat → Nat × Py := fun x w b _ => (x + w + b, Py.atom 4)

/-- Max-pool forward whose cache is the atom tagged 5. -/
def poolTag : Nat → Nat → Nat × Py := fun a _ => (a, Py.atom 5)

/-- A one-gradient primitive backward that always raises a primitive
(shape/contract) error. -/
def rbFail : Nat → Py → Except PyErr Nat := fun _ _ => Except.error PyErr.primitiveFailure

/-- A three-gradient primitive backward that always raises a primitive
(shape/contract) error. -/
def abFail : Nat → Py → Except PyErr (Nat × Nat × Nat) :=
  fun _ _ => Except.error PyErr.primitiveFailure

/-- Pure affine forward over `Nat` whose cache remembers the input `x`. -/
def afSh : Nat → Nat → Nat → Nat × Nat := fun x w b => (x + w + b, x)

/-- Pure affine backward over `Nat` returning the remembered input as `dx`. -/
def abSh : Nat → Nat → Nat × Nat × Nat := fun d c => (c, d, d)

/-- Pure ReLU forward over `Nat`. -/
def rfSh : Nat → Nat × Nat := fun a => (a, a)

/-- Pure ReLU backward over `Nat`. -/
def rbSh : Nat → Nat → Nat := fun d _ => d

/-- Pure batchnorm forward over `Nat`. -/
def bnfSh : Nat → Int → Int → Nat → Nat × Nat := fun a _ _ _ => (a, 0)

/-- Pure batchnorm backward over `Nat`. -/
def bnbSh : Nat → Nat → Nat × Nat × Nat := fun d _ => (d, d, d)

/-- Pure dropout forward over `Nat`. -/
def dofSh : Nat → Nat → Nat × Nat := fun a _ => (a, 0)

/-- Pure dropout backward over `Nat`. -/
def dobSh : Nat → Nat → Nat := fun d _ => d

/-- Pure convolution forward over `Nat` whose cache remembers `x`. -/
def cvfSh : Nat → Nat → Nat → Nat → Nat × Nat := fun x w b _ => (x + w + b, x)

/-- Pure convolution backward over `Nat` returning the remembered input. -/
def cvbSh : Nat → Nat → Nat × Nat × Nat := fun d c => (c, d, d)

/-- Pure max-pool forward over `Nat`. -/
def plfSh : Nat → Nat → Nat × Nat := fun a _ => (a, 0)

/-- Pure max-pool backward over `Nat`. -/
def plbSh : Nat → Nat → Nat := fun d _ => d

/-- A batchnorm forward recording the shift argument in its cache. -/
def bnfA : Nat → Int → Int → Nat → Nat × Int := fun v _ bt _ => (v, bt)

/-- A batchnorm forward recording the doubled shift argument; it agrees
with `bnfA` exactly on the slice `beta = 0`. -/
def bnfB : Nat → Int → Int → Nat → Nat × Int := fun v _ bt _ => (v, bt + bt)

/-- A batchnorm backward with auxiliary scale/shift gradients 1 and 2. -/
def bnbA : Nat → Nat → Nat × Nat × Nat := fun d c => (d + c, 1, 2)

/-- A batchnorm backward agreeing with `bnbA` on the input gradient but
with different auxiliary scale/shift gradients. -/
def bnbB : Nat → Nat → Nat × Nat × Nat := fun d c => (d + c, 7, 9)

/-- Fallible affine forward that raises the error 7. -/
def afErr7 : Nat → Nat → Nat → Except Nat (Nat × Nat) := fun _ _ _ => Except.error 7

/-- Fallible ReLU forward that always succeeds. -/
def rfOkE : Nat → Except Nat (Nat × Nat) := fun a => Except.ok (a, a)

/-- Fallible batchnorm forward that always succeeds. -/
def bnfOkE : Nat → Int → Int → Nat → Except Nat (Nat × Nat) := fun a _ _ _ => Except.ok (a, 0)

/-- Fallible dropout forward that always succeeds. -/
def dofOkE : Nat → Nat → Except Nat (Nat × Nat) := fun a _ => Except.ok (a, 0)

/-- Fallible convolution forward that always succeeds. -/
def cfOkE : Nat → Nat → Nat → Nat → Except Nat (Nat × Nat) := fun x _ _ _ => Except.ok (x, 0)

/-- Fallible max-pool forward that always succeeds. -/
def mpfOkE : Nat → Nat → Except Nat (Nat × Nat) := fun a _ => Except.ok (a, 0)

/-- Fallible ReLU backward that always succeeds. -/
def rbOkE : Nat → Nat → Except Nat Nat := fun d _ => Except.ok d

/-- Fallible affine backward that always succeeds. -/
def abOkE : Nat → Nat → Except Nat (Nat × Nat × Nat) := fun d c => Except.ok (c, d, d)

/-- Fallible batchnorm backward that always succeeds. -/
def bnbOkE : Nat → Nat → Except Nat (Nat × Nat × Nat) := fun d _ => Except.ok (d, d, d)

/-- Fallible dropout backward that always succeeds. -/
def dobOkE : Nat → Nat → Except Nat Nat := fun d _ => Except.ok d

/-- Fallible convolution backward that always succeeds. -/
def cbOkE : Nat → Nat → Except Nat (Nat × Nat × Nat) := fun d c => Except.ok (c, d, d)

/-- Fallible max-pool backward that always succeeds. -/
def mpbOkE : Nat → Nat → Except Nat Nat := fun d _ => Except.ok d

/-- Lift a state-oblivious one-argument primitive into `StateM`. -/
def liftSt1 {S A R : Type} (f : A → R) : A → StateM S R :=
  fun a s => (f a, s)

/-- Lift a state-oblivious two-argument primitive into `StateM`. -/
def liftSt2 {S A B R : Type} (f : A → B → R) : A → B → StateM S R :=
  fun a b s => (f a b, s)

/-- Lift a state-oblivious three-argument primitive into `StateM`. -/
def liftSt3 {S A B C R : Type} (f : A → B → C → R) : A → B → C → StateM S R :=
  fun a b c s => (f a b c, s)

/-- Lift a state-oblivious four-argument primitive into `StateM`. -/
def liftSt4 {S A B C D R : Type} (f : A → B → C → D → R) : A → B → C → D → StateM S R :=
  fun a b c d s => (f a b c d, s)

/-!
Helper lemmas shared by the claim theorems.
-/

/-- Binding a failed `Except` computation short-circuits. -/
@[simp]
theorem error_bind {E A B : Type} (e : E) (f : A → Except E B) :
    (Except.error e >>= f : Except E B) = Except.error e := rfl

/-- Binding a successful `Except` computation applies the continuation. -/
@[simp]
theorem ok_bind {E A B : Type} (a : A) (f : A → Except E B) :
    (Except.ok a >>= f : Except E B) = f a := rfl

/-- Two-place sequence unpacking fails on any tuple whose arity is not two. -/
theorem unpack2_arity {l : List Py} (h : l.length ≠ 2) :
    unpack2 (Py.tuple l) = Except.error PyErr.unpackMismatch := by
  match l with
  | [] => rfl
  | [a] => rfl
  | [a, b] => exact absurd rfl h
  | a :: b :: c :: t => rfl

/-- Three-place sequence unpacking fails on any tuple whose arity is not three. -/
theorem unpack3_arity {l : List Py} (h : l.length ≠ 3) :
    unpack3 (Py.tuple l) = Except.error PyErr.unpackMismatch := by
  match l with
  | [] => rfl
  | [a] => rfl
  | [a, b] => rfl
  | [a, b, c] => exact absurd rfl h
  | a :: b :: c :: d :: t => rfl

/-- C1: every composite block's backward destructures the composite cache in
the exact reverse of forward's stage order and feeds each primitive backward
the local upstream gradient produced by the immediately-following stage's
backward call; the original `dout` reaches only the last-stage backward.  In
particular `conv_relu_pool_backward` runs the pool backward on `dout`, the
ReLU backward on its result, and the convolution backward on that result. -/
theorem c1_backward_reverse_chain
    {V FC RC BC DC CC PC : Type}
    (rb : V → RC → Id V) (ab : V → FC → Id (V × V × V))
    (bnb : V → BC → Id (V × V × V)) (dob : V → DC → Id V)
    (cb : V → CC → Id (V × V × V)) (mpb : V → PC → Id V)
    (dout : V) (fc : FC) (rc : RC) (bc : BC) (dc : DC) (cc : CC) (pc : PC) :
    conv_relu_pool_backward rb cb mpb dout (cc, rc, pc)
      = cb (rb (mpb dout pc) rc) cc
    ∧ affine_relu_backward rb ab dout (fc, rc) = ab (rb dout rc) fc
    ∧ affine_relu_batchnorm_backward bnb rb ab dout ((fc, rc), bc)
      = ab (rb (bnb dout bc).1 rc) fc
    ∧ affine_relu_batchnorm_dropout_backward dob bnb rb ab dout ((fc, rc), bc, dc)
      = ab (rb (bnb (dob dout dc) bc).1 rc) fc
    ∧ affine_relu_dropout_backward dob rb ab dout ((fc, rc), dc)
      = ab (rb (dob dout dc) rc) fc
    ∧ conv_relu_backward rb cb dout (cc, rc) = cb (rb dout rc) cc :=
  ⟨rfl, rfl, rfl, rfl, rfl, rfl⟩

/-- C2: the Affine–Activation block's forward computes the affine stage on
(x, w, b), feeds its output to the activation stage, and returns the
activation output with the cache pairing the two stage caches in that
order; its backward runs the activation backward on `dout` with the
activation cache and then the affine backward on the result with the
affine cache, returning that gradient triple. -/
theorem c2_affine_activation_block
    {V FC RC : Type}
    (af : V → V → V → Id (V × FC)) (rf : V → Id (V × RC))
    (rb : V → RC → Id V) (ab : V → FC → Id (V × V × V))
    (x w b dout : V) (fc : FC) (rc : RC) :
    affine_relu_forward af rf x w b
      = ((rf (af x w b).1).1, ((af x w b).2, (rf (af x w b).1).2))
    ∧ affine_relu_backward rb ab dout (fc, rc) = ab (rb dout rc) fc :=
  ⟨rfl, rfl⟩

/-- C10: the four-stage block factors exactly through the three-stage block:
its forward is the three-stage forward followed by the dropout forward with
the cache extended by the dropout cache, and its backward on a cache
(c1, c2, c3) is the three-stage backward applied to the dropout backward's
output and the truncated cache (c1, c2). -/
theorem c10_four_stage_factors_through_three_stage
    {V FC RC BC DC BnP DoP : Type}
    (af : V → V → V → Id (V × FC)) (rf : V → Id (V × RC))
    (bnf : V → Int → Int → BnP → Id (V × BC)) (dof : V → DoP → Id (V × DC))
    (dob : V → DC → Id V) (bnb : V → BC → Id (V × V × V))
    (rb : V → RC → Id V) (ab : V → FC → Id (V × V × V))
    (x w b dout : V) (p : BnP) (dp : DoP)
    (c1 : FC × RC) (c2 : BC) (c3 : DC) :
    affine_relu_batchnorm_dropout_forward af rf bnf dof x w b p dp
      = ((dof (affine_relu_batchnorm_forward af rf bnf x w b p).1 dp).1,
         ((affine_relu_batchnorm_forward af rf bnf x w b p).2.1,
          (affine_relu_batchnorm_forward af rf bnf x w b p).2.2,
          (dof (affine_relu_batchnorm_forward af rf bnf x w b p).1 dp).2))
    ∧ affine_relu_batchnorm_dropout_backward dob bnb rb ab dout (c1, c2, c3)
      = affine_relu_batchnorm_backward bnb rb ab (dob dout c3) (c1, c2) :=
  ⟨rfl, rfl⟩

/-- C3, counterexample: the claim says the cache tuple returned by the
three-stage Affine–Activation–Normalization forward has length three, but
the code builds `cache = (cache1, cache2)` with the whole Affine–Activation
sub-block cache nested as the single first component, so the tuple's
length is two. -/
theorem c3_counterexample :
    ¬ pyLen ((affine_relu_batchnorm_forward_py afTag rfTag bnTag 1 2 3 0).2)
        = some 3 := by
  decide

/-- C3, amended: the tuple length of the cache returned by forward equals
the number of cache components the block's own code tuples together — two
for Affine–Activation, two for Affine–Activation–Normalization and three
for its dropout variant (these nest the whole Affine–Activation sub-block
cache as one component), two for Convolution–Activation, three for
Convolution–Activation–Pool — and the components appear in
forward-execution order. -/
theorem c3_cache_arity_and_order (x w b bnp dp cp pp : Nat) :
    (affine_relu_forward_py afTag rfTag x w b).2
      = Py.tuple [Py.atom 0, Py.atom 1]
    ∧ (affine_relu_batchnorm_forward_py afTag rfTag bnTag x w b bnp).2
      = Py.tuple [Py.tuple [Py.atom 0, Py.atom 1], Py.atom 2]
    ∧ (affine_relu_batchnorm_dropout_forward_py afTag rfTag bnTag dropTag x w b bnp dp).2
      = Py.tuple [Py.tuple [Py.atom 0, Py.atom 1], Py.atom 2, Py.atom 3]
    ∧ (conv_relu_forward_py convTag rfTag x w b cp).2
      = Py.tuple [Py.atom 4, Py.atom 1]
    ∧ (conv_relu_pool_forward_py convTag rfTag poolTag x w b cp pp).2
      = Py.tuple [Py.atom 4, Py.atom 1, Py.atom 5]
    ∧ pyLen ((affine_relu_forward_py afTag rfTag x w b).2) = some 2
    ∧ pyLen ((affine_relu_batchnorm_forward_py afTag rfTag bnTag x w b bnp).2) = some 2
    ∧ pyLen ((affine_relu_batchnorm_dropout_forward_py afTag rfTag bnTag dropTag x w b bnp dp).2)
      = some 3
    ∧ pyLen ((conv_relu_forward_py convTag rfTag x w b cp).2) = some 2
    ∧ pyLen ((conv_relu_pool_forward_py convTag rfTag poolTag x w b cp pp).2) = some 3 :=
  ⟨rfl, rfl, rfl, rfl, rfl, rfl, rfl, rfl, rfl, rfl⟩

/-- C4: both normalization-using blocks invoke the normalization forward
with the fixed constants scale = 1 and shift = 0 on every input: their
outputs depend only on the normalization primitive's behaviour on that
fixed slice (two primitives agreeing at scale 1, shift 0 give identical
composites), and the three-stage forward is literally the normalization
forward applied at scale 1 and shift 0 to the sub-block output. -/
theorem c4_normalization_fixed_scale_shift
    {V FC RC BC DC BnP DoP : Type}
    (af : V → V → V → Id (V × FC)) (rf : V → Id (V × RC))
    (bnf bnf2 : V → Int → Int → BnP → Id (V × BC))
    (dof : V → DoP → Id (V × DC))
    (x w b : V) (p : BnP) (dp : DoP)
    (h : ∀ v q, bnf v 1 0 q = bnf2 v 1 0 q) :
    affine_relu_batchnorm_forward af rf bnf x w b p
      = affine_relu_batchnorm_forward af rf bnf2 x w b p
    ∧ affine_relu_batchnorm_dropout_forward af rf bnf dof x w b p dp
      = affine_relu_batchnorm_dropout_forward af rf bnf2 dof x w b p dp
    ∧ affine_relu_batchnorm_forward af rf bnf x w b p
      = ((bnf (affine_relu_forward af rf x w b).1 1 0 p).1,
         ((affine_relu_forward af rf x w b).2,
          (bnf (affine_relu_forward af rf x w b).1 1 0 p).2)) := by
  refine ⟨?_, ?_, rfl⟩
  · show ((bnf (affine_relu_forward af rf x w b).1 1 0 p).1,
         ((affine_relu_forward af rf x w b).2,
          (bnf (affine_relu_forward af rf x w b).1 1 0 p).2))
        = ((bnf2 (affine_relu_forward af rf x w b).1 1 0 p).1,
         ((affine_relu_forward af rf x w b).2,
          (bnf2 (affine_relu_forward af rf x w b).1 1 0 p).2))
    rw [h]
  · show ((dof (bnf (affine_relu_forward af rf x w b).1 1 0 p).1 dp).1,
         ((affine_relu_forward af rf x w b).2,
          (bnf (affine_relu_forward af rf x w b).1 1 0 p).2,
          (dof (bnf (affine_relu_forward af rf x w b).1 1 0 p).1 dp).2))
        = ((dof (bnf2 (affine_relu_forward af rf x w b).1 1 0 p).1 dp).1,
         ((affine_relu_forward af rf x w b).2,
          (bnf2 (affine_relu_forward af rf x w b).1 1 0 p).2,
          (dof (bnf2 (affine_relu_forward af rf x w b).1 1 0 p).1 dp).2))
    rw [h]

/-- C4, witness: at a concrete input, two normalization primitives that
agree on the scale-1/shift-0 slice give identical three-stage outputs. -/
theorem c4_witness :
    affine_relu_batchnorm_forward (m := Id) afSh rfSh bnfA 1 2 3 0
      = affine_relu_batchnorm_forward (m := Id) afSh rfSh bnfB 1 2 3 0 :=
  (c4_normalization_fixed_scale_shift afSh rfSh bnfA bnfB dofSh 1 2 3 0 0
    (fun _ _ => rfl)).1

/-- C5: the backward of each normalization-using block keeps only the
input-gradient component of the normalization backward's triple,
discarding its scale/shift gradients — the returned triple is exactly
the Affine–Activation sub-block backward applied to that component, and
two normalization backwards agreeing on the input gradient (however
their scale/shift gradients differ) yield identical composite results. -/
theorem c5_discard_scale_shift_gradients
    {V FC RC BC DC : Type}
    (bnb bnb2 : V → BC → Id (V × V × V))
    (dob : V → DC → Id V)
    (rb : V → RC → Id V) (ab : V → FC → Id (V × V × V))
    (dout : V) (fc : FC) (rc : RC) (bc : BC) (dc : DC)
    (h : ∀ d c, (bnb d c).1 = (bnb2 d c).1) :
    affine_relu_batchnorm_backward bnb rb ab dout ((fc, rc), bc)
      = affine_relu_backward rb ab (bnb dout bc).1 (fc, rc)
    ∧ affine_relu_batchnorm_backward bnb rb ab dout ((fc, rc), bc)
      = affine_relu_batchnorm_backward bnb2 rb ab dout ((fc, rc), bc)
    ∧ affine_relu_batchnorm_dropout_backward dob bnb rb ab dout ((fc, rc), bc, dc)
      = affine_relu_backward rb ab (bnb (dob dout dc) bc).1 (fc, rc)
    ∧ affine_relu_batchnorm_dropout_backward dob bnb rb ab dout ((fc, rc), bc, dc)
      = affine_relu_batchnorm_dropout_backward dob bnb2 rb ab dout ((fc, rc), bc, dc) := by
  refine ⟨rfl, ?_, rfl, ?_⟩
  · show ab (rb (bnb dout bc).1 rc) fc = ab (rb (bnb2 dout bc).1 rc) fc
    rw [h]
  · show ab (rb (bnb (dob dout dc) bc).1 rc) fc
        = ab (rb (bnb2 (dob dout dc) bc).1 rc) fc
    rw [h]

/-- C5, witness: at a concrete input, two normalization backwards that
agree on the input gradient but differ in their scale/shift gradients
give the same three-stage backward result. -/
theorem c5_witness :
    affine_relu_batchnorm_backward (m := Id) bnbA rbSh abSh 5 ((1, 2), 3)
      = affine_relu_batchnorm_backward (m := Id) bnbB rbSh abSh 5 ((1, 2), 3) :=
  (c5_discard_scale_shift_gradients bnbA bnbB dobSh rbSh abSh 5 1 2 3 4
    (fun _ _ => rfl)).2.1

/-- C6, counterexample: handing the Affine–Activation backward a cache of
arity three makes the call fail with the unpacking error raised at the
block's own destructuring statement — even when every primitive backward
is set to raise a primitive shape/contract error, the surfaced failure is
the unpacking mismatch, not a downstream primitive error. -/
theorem c6_counterexample :
    affine_relu_backward_py rbFail abFail 0
        (Py.tuple [Py.atom 0, Py.atom 1, Py.atom 2])
      = Except.error PyErr.unpackMismatch
    ∧ (Except.error PyErr.unpackMismatch : Except PyErr (Nat × Nat × Nat))
      ≠ Except.error PyErr.primitiveFailure := by
  refine ⟨rfl, fun h => ?_⟩
  injection h with h2
  exact PyErr.noConfusion h2

/-- C6, amended: if a composite block's backward is given a cache tuple
whose arity differs from the expected number of components, the call
fails with the unpacking error raised at the block's own destructuring
statement (not a downstream primitive error, and not an explicit
validation); the result is independent of the primitive backwards, so no
primitive backward is invoked before the failure in any block. -/
theorem c6_wrong_arity_unpack_failure
    {V : Type}
    (rb dob mpb : V → Py → Except PyErr V)
    (ab bnb cb : V → Py → Except PyErr (V × V × V))
    (dout : V) (l : List Py) :
    (l.length ≠ 2 →
      affine_relu_backward_py rb ab dout (Py.tuple l)
        = Except.error PyErr.unpackMismatch
      ∧ affine_relu_batchnorm_backward_py bnb rb ab dout (Py.tuple l)
        = Except.error PyErr.unpackMismatch
      ∧ affine_relu_dropout_backward_py dob rb ab dout (Py.tuple l)
        = Except.error PyErr.unpackMismatch
      ∧ conv_relu_backward_py rb cb dout (Py.tuple l)
        = Except.error PyErr.unpackMismatch)
    ∧ (l.length ≠ 3 →
      affine_relu_batchnorm_dropout_backward_py dob bnb rb ab dout (Py.tuple l)
        = Except.error PyErr.unpackMismatch
      ∧ conv_relu_pool_backward_py rb cb mpb dout (Py.tuple l)
        = Except.error PyErr.unpackMismatch) := by
  constructor
  · intro h
    refine ⟨?_, ?_, ?_, ?_⟩ <;>
      simp [affine_relu_backward_py, affine_relu_batchnorm_backward_py,
        affine_relu_dropout_backward_py, conv_relu_backward_py, unpack2_arity h]
  · intro h
    refine ⟨?_, ?_⟩ <;>
      simp [affine_relu_batchnorm_dropout_backward_py, conv_relu_pool_backward_py,
        unpack3_arity h]

/-- C6, witness: a one-component cache makes the Affine–Activation
backward fail with the unpacking error. -/
theorem c6_witness :
    affine_relu_backward_py rbFail abFail 0 (Py.tuple [Py.atom 0])
      = Except.error PyErr.unpackMismatch :=
  ((c6_wrong_arity_unpack_failure rbFail rbFail rbFail abFail abFail abFail 0
    [Py.atom 0]).1 (by decide)).1

/-- C8: for every block variant, running forward on x and then backward on
the resulting cache yields a `dx` of the same shape as x, provided the
affine (resp. convolution) backward returns an input gradient of the same
shape as the input recorded by the matching forward's cache. -/
theorem c8_dx_shape_preserved
    {V FC RC BC DC CC PC BnP DoP CvP PoP Sh : Type}
    (sh : V → Sh)
    (af : V → V → V → Id (V × FC)) (rf : V → Id (V × RC))
    (bnf : V → Int → Int → BnP → Id (V × BC)) (dof : V → DoP → Id (V × DC))
    (cf : V → V → V → CvP → Id (V × CC)) (mpf : V → PoP → Id (V × PC))
    (rb : V → RC → Id V) (ab : V → FC → Id (V × V × V))
    (bnb : V → BC → Id (V × V × V)) (dob : V → DC → Id V)
    (cb : V → CC → Id (V × V × V)) (mpb : V → PC → Id V)
    (x w b dout : V) (p : BnP) (dp : DoP) (cp : CvP) (pp : PoP)
    (hA : ∀ x1 w1 b1 d, sh ((ab d (af x1 w1 b1).2).1) = sh x1)
    (hC : ∀ x1 w1 b1 cp1 d, sh ((cb d (cf x1 w1 b1 cp1).2).1) = sh x1) :
    sh ((affine_relu_backward rb ab dout
        (affine_relu_forward af rf x w b).2).1) = sh x
    ∧ sh ((affine_relu_batchnorm_backward bnb rb ab dout
        (affine_relu_batchnorm_forward af rf bnf x w b p).2).1) = sh x
    ∧ sh ((affine_relu_batchnorm_dropout_backward dob bnb rb ab dout
        (affine_relu_batchnorm_dropout_forward af rf bnf dof x w b p dp).2).1) = sh x
    ∧ sh ((affine_relu_dropout_backward dob rb ab dout
        (affine_relu_dropout_forward af rf dof x w b dp).2).1) = sh x
    ∧ sh ((conv_relu_backward rb cb dout
        (conv_relu_forward cf rf x w b cp).2).1) = sh x
    ∧ sh ((conv_relu_pool_backward rb cb mpb dout
        (conv_relu_pool_forward cf rf mpf x w b cp pp).2).1) = sh x :=
  ⟨hA x w b _, hA x w b _, hA x w b _, hA x w b _, hC x w b cp _, hC x w b cp _⟩

/-- C8, witness: at a concrete input with shape read off directly, the
Affine–Activation round trip preserves the shape of x. -/
theorem c8_witness :
    (fun n : Nat => n) ((affine_relu_backward (m := Id) rbSh abSh 9
        (affine_relu_forward (m := Id) afSh rfSh 1 2 3).2).1)
      = (fun n : Nat => n) 1 :=
  (c8_dx_shape_preserved (fun n : Nat => n) afSh rfSh bnfSh dofSh cvfSh plfSh
    rbSh abSh bnbSh dobSh cvbSh plbSh 1 2 3 9 0 0 0 0
    (fun _ _ _ _ => rfl) (fun _ _ _ _ _ => rfl)).1

/-- C9: every composite forward and backward is a deterministic function of
its declared arguments and the primitive functions: run against an ambient
mutable state with state-oblivious primitives, each block returns exactly
the pure result paired with the untouched initial state, for every initial
state — so no composite reads or writes state held between calls, and
repeated runs on identical inputs produce identical outputs, caches and
gradients. -/
theorem c9_stateless_reproducible
    {S V FC RC BC DC CC PC BnP DoP CvP PoP : Type}
    (af : V → V → V → V × FC) (rf : V → V × RC)
    (bnf : V → Int → Int → BnP → V × BC) (dof : V → DoP → V × DC)
    (cf : V → V → V → CvP → V × CC) (mpf : V → PoP → V × PC)
    (rb : V → RC → V) (ab : V → FC → V × V × V)
    (bnb : V → BC → V × V × V) (dob : V → DC → V)
    (cb : V → CC → V × V × V) (mpb : V → PC → V)
    (x w b dout : V) (p : BnP) (dp : DoP) (cp : CvP) (pp : PoP)
    (fc : FC) (rc : RC) (bc : BC) (dc : DC) (cc : CC) (pc : PC)
    (s : S) :
    affine_relu_forward (liftSt3 af) (liftSt1 rf) x w b s
      = (affine_relu_forward (m := Id) af rf x w b, s)
    ∧ affine_relu_backward (liftSt2 rb) (liftSt2 ab) dout (fc, rc) s
      = (affine_relu_backward (m := Id) rb ab dout (fc, rc), s)
    ∧ affine_relu_batchnorm_forward (liftSt3 af) (liftSt1 rf) (liftSt4 bnf) x w b p s
      = (affine_relu_batchnorm_forward (m := Id) af rf bnf x w b p, s)
    ∧ affine_relu_batchnorm_backward (liftSt2 bnb) (liftSt2 rb) (liftSt2 ab)
        dout ((fc, rc), bc) s
      = (affine_relu_batchnorm_backward (m := Id) bnb rb ab dout ((fc, rc), bc), s)
    ∧ affine_relu_batchnorm_dropout_forward (liftSt3 af) (liftSt1 rf) (liftSt4 bnf)
        (liftSt2 dof) x w b p dp s
      = (affine_relu_batchnorm_dropout_forward (m := Id) af rf bnf dof x w b p dp, s)
    ∧ affine_relu_batchnorm_dropout_backward (liftSt2 dob) (liftSt2 bnb) (liftSt2 rb)
        (liftSt2 ab) dout ((fc, rc), bc, dc) s
      = (affine_relu_batchnorm_dropout_backward (m := Id) dob bnb rb ab
          dout ((fc, rc), bc, dc), s)
    ∧ affine_relu_dropout_forward (liftSt3 af) (liftSt1 rf) (liftSt2 dof) x w b dp s
      = (affine_relu_dropout_forward (m := Id) af rf dof x w b dp, s)
    ∧ affine_relu_dropout_backward (liftSt2 dob) (liftSt2 rb) (liftSt2 ab)
        dout ((fc, rc), dc) s
      = (affine_relu_dropout_backward (m := Id) dob rb ab dout ((fc, rc), dc), s)
    ∧ conv_relu_forward (liftSt4 cf) (liftSt1 rf) x w b cp s
      = (conv_relu_forward (m := Id) cf rf x w b cp, s)
    ∧ conv_relu_backward (liftSt2 rb) (liftSt2 cb) dout (cc, rc) s
      = (conv_relu_backward (m := Id) rb cb dout (cc, rc), s)
    ∧ conv_relu_pool_forward (liftSt4 cf) (liftSt1 rf) (liftSt2 mpf) x w b cp pp s
      = (conv_relu_pool_forward (m := Id) cf rf mpf x w b cp pp, s)
    ∧ conv_relu_pool_backward (liftSt2 rb) (liftSt2 cb) (liftSt2 mpb)
        dout (cc, rc, pc) s
      = (conv_relu_pool_backward (m := Id) rb cb mpb dout (cc, rc, pc), s) :=
  ⟨rfl, rfl, rfl, rfl, rfl, rfl, rfl, rfl, rfl, rfl, rfl, rfl⟩

/-- C7: in every composite forward and backward, an error raised by a
constituent primitive (the stages before it having succeeded) propagates
unmodified to the caller: the composite returns exactly that error, with
no retry, recovery, catching or wrapping, in all twelve functions. -/
theorem c7_error_propagation
    {E V FC RC BC DC CC PC BnP DoP CvP PoP : Type}
    (af : V → V → V → Except E (V × FC)) (rf : V → Except E (V × RC))
    (bnf : V → Int → Int → BnP → Except E (V × BC))
    (dof : V → DoP → Except E (V × DC))
    (cf : V → V → V → CvP → Except E (V × CC))
    (mpf : V → PoP → Except E (V × PC))
    (rb : V → RC → Except E V) (ab : V → FC → Except E (V × V × V))
    (bnb : V → BC → Except E (V × V × V)) (dob : V → DC → Except E V)
    (cb : V → CC → Except E (V × V × V)) (mpb : V → PC → Except E V)
    (x w b dout : V) (p : BnP) (dp : DoP) (cp : CvP) (pp : PoP)
    (fc : FC) (rc : RC) (bc : BC) (dc : DC) (cc : CC) (pc : PC) (e : E) :
    (af x w b = Except.error e →
      affine_relu_forward af rf x w b = Except.error e)
    ∧ (∀ a fc1, af x w b = Except.ok (a, fc1) → rf a = Except.error e →
      affine_relu_forward af rf x w b = Except.error e)
    ∧ (af x w b = Except.error e →
      affine_relu_batchnorm_forward af rf bnf x w b p = Except.error e)
    ∧ (∀ a fc1, af x w b = Except.ok (a, fc1) → rf a = Except.error e →
      affine_relu_batchnorm_forward af rf bnf x w b p = Except.error e)
    ∧ (∀ a fc1 l1 rc1, af x w b = Except.ok (a, fc1) →
      rf a = Except.ok (l1, rc1) → bnf l1 1 0 p = Except.error e →
      affine_relu_batchnorm_forward af rf bnf x w b p = Except.error e)
    ∧ (af x w b = Except.error e →
      affine_relu_batchnorm_dropout_forward af rf bnf dof x w b p dp = Except.error e)
    ∧ (∀ a fc1, af x w b = Except.ok (a, fc1) → rf a = Except.error e →
      affine_relu_batchnorm_dropout_forward af rf bnf dof x w b p dp = Except.error e)
    ∧ (∀ a fc1 l1 rc1, af x w b = Except.ok (a, fc1) →
      rf a = Except.ok (l1, rc1) → bnf l1 1 0 p = Except.error e →
      affine_relu_batchnorm_dropout_forward af rf bnf dof x w b p dp = Except.error e)
    ∧ (∀ a fc1 l1 rc1 l2 bc1, af x w b = Except.ok (a, fc1) →
      rf a = Except.ok (l1, rc1) → bnf l1 1 0 p = Except.ok (l2, bc1) →
      dof l2 dp = Except.error e →
      affine_relu_batchnorm_dropout_forward af rf bnf dof x w b p dp = Except.error e)
    ∧ (af x w b = Except.error e →
      affine_relu_dropout_forward af rf dof x w b dp = Except.error e)
    ∧ (∀ a fc1, af x w b = Except.ok (a, fc1) → rf a = Except.error e →
      affine_relu_dropout_forward af rf dof x w b dp = Except.error e)
    ∧ (∀ a fc1 l1 rc1, af x w b = Except.ok (a, fc1) →
      rf a = Except.ok (l1, rc1) → dof l1 dp = Except.error e →
      affine_relu_dropout_forward af rf dof x w b dp = Except.error e)
    ∧ (cf x w b cp = Except.error e →
      conv_relu_forward cf rf x w b cp = Except.error e)
    ∧ (∀ a cc1, cf x w b cp = Except.ok (a, cc1) → rf a = Except.error e →
      conv_relu_forward cf rf x w b cp = Except.error e)
    ∧ (cf x w b cp = Except.error e →
      conv_relu_pool_forward cf rf mpf x w b cp pp = Except.error e)
    ∧ (∀ a cc1, cf x w b cp = Except.ok (a, cc1) → rf a = Except.error e →
      conv_relu_pool_forward cf rf mpf x w b cp pp = Except.error e)
    ∧ (∀ a cc1 s1 rc1, cf x w b cp = Except.ok (a, cc1) →
      rf a = Except.ok (s1, rc1) → mpf s1 pp = Except.error e →
      conv_relu_pool_forward cf rf mpf x w b cp pp = Except.error e)
    ∧ (rb dout rc = Except.error e →
      affine_relu_backward rb ab dout (fc, rc) = Except.error e)
    ∧ (∀ da, rb dout rc = Except.ok da → ab da fc = Except.error e →
      affine_relu_backward rb ab dout (fc, rc) = Except.error e)
    ∧ (bnb dout bc = Except.error e →
      affine_relu_batchnorm_backward bnb rb ab dout ((fc, rc), bc) = Except.error e)
    ∧ (∀ dl2 dg2 db2, bnb dout bc = Except.ok (dl2, dg2, db2) →
      rb dl2 rc = Except.error e →
      affine_relu_batchnorm_backward bnb rb ab dout ((fc, rc), bc) = Except.error e)
    ∧ (∀ dl2 dg2 db2 da, bnb dout bc = Except.ok (dl2, dg2, db2) →
      rb dl2 rc = Except.ok da → ab da fc = Except.error e →
      affine_relu_batchnorm_backward bnb rb ab dout ((fc, rc), bc) = Except.error e)
    ∧ (dob dout dc = Except.error e →
      affine_relu_batchnorm_dropout_backward dob bnb rb ab dout ((fc, rc), bc, dc)
        = Except.error e)
    ∧ (∀ dl3, dob dout dc = Except.ok dl3 → bnb dl3 bc = Except.error e →
      affine_relu_batchnorm_dropout_backward dob bnb rb ab dout ((fc, rc), bc, dc)
        = Except.error e)
    ∧ (∀ dl3 dl2 dg2 db2, dob dout dc = Except.ok dl3 →
      bnb dl3 bc = Except.ok (dl2, dg2, db2) → rb dl2 rc = Except.error e →
      affine_relu_batchnorm_dropout_backward dob bnb rb ab dout ((fc, rc), bc, dc)
        = Except.error e)
    ∧ (∀ dl3 dl2 dg2 db2 da, dob dout dc = Except.ok dl3 →
      bnb dl3 bc = Except.ok (dl2, dg2, db2) → rb dl2 rc = Except.ok da →
      ab da fc = Except.error e →
      affine_relu_batchnorm_dropout_backward dob bnb rb ab dout ((fc, rc), bc, dc)
        = Except.error e)
    ∧ (dob dout dc = Except.error e →
      affine_relu_dropout_backward dob rb ab dout ((fc, rc), dc) = Except.error e)
    ∧ (∀ dl2, dob dout dc = Except.ok dl2 → rb dl2 rc = Except.error e →
      affine_relu_dropout_backward dob rb ab dout ((fc, rc), dc) = Except.error e)
    ∧ (∀ dl2 da, dob dout dc = Except.ok dl2 → rb dl2 rc = Except.ok da →
      ab da fc = Except.error e →
      affine_relu_dropout_backward dob rb ab dout ((fc, rc), dc) = Except.error e)
    ∧ (rb dout rc = Except.error e →
      conv_relu_backward rb cb dout (cc, rc) = Except.error e)
    ∧ (∀ da, rb dout rc = Except.ok da → cb da cc = Except.error e →
      conv_relu_backward rb cb dout (cc, rc) = Except.error e)
    ∧ (mpb dout pc = Except.error e →
      conv_relu_pool_backward rb cb mpb dout (cc, rc, pc) = Except.error e)
    ∧ (∀ ds, mpb dout pc = Except.ok ds → rb ds rc = Except.error e →
      conv_relu_pool_backward rb cb mpb dout (cc, rc, pc) = Except.error e)
    ∧ (∀ ds da, mpb dout pc = Except.ok ds → rb ds rc = Except.ok da →
      cb da cc = Except.error e →
      conv_relu_pool_backward rb cb mpb dout (cc, rc, pc) = Except.error e) := by
  refine ⟨?_, ?_, ?_, ?_, ?_, ?_, ?_, ?_, ?_, ?_, ?_, ?_, ?_, ?_, ?_, ?_, ?_,
    ?_, ?_, ?_, ?_, ?_, ?_, ?_, ?_, ?_, ?_, ?_, ?_, ?_, ?_, ?_, ?_, ?_⟩ <;>
  · intros
    simp_all [affine_relu_forward, affine_relu_backward,
      affine_relu_batchnorm_forward, affine_relu_batchnorm_backward,
      affine_relu_batchnorm_dropout_forward, affine_relu_batchnorm_dropout_backward,
      affine_relu_dropout_forward, affine_relu_dropout_backward,
      conv_relu_forward, conv_relu_backward,
      conv_relu_pool_forward, conv_relu_pool_backward]

/-- C7, witness: a failing affine primitive's error (the value 7) surfaces
unmodified from the Affine–Activation forward at a concrete input. -/
theorem c7_witness :
    affine_relu_forward afErr7 rfOkE 1 2 3 = Except.error 7 :=
  (c7_error_propagation afErr7 rfOkE bnfOkE dofOkE cfOkE mpfOkE
    rbOkE abOkE bnbOkE dobOkE cbOkE mpbOkE
    1 2 3 4 0 0 0 0 0 0 0 0 0 0 7).1 rfl

end LayerUtils
